import Mathlib

/-!
# Verification of the Sensor-Watch timer and alarm complication faces

Shallow embedding of `movement/watch_faces/complication/alarm_face.c` and
`movement/watch_faces/complication/timer_face.c`.

Modelling conventions:
* The packed RTC register `watch_date_time` (declared in a header outside the
  embedded sources) is modelled as a structure of plain `Nat` fields carrying
  their documented ranges as hypotheses where needed.
* Display rendering (`_draw`, `_alarm_face_draw`, `sprintf`, segment and LED
  output) is pure output formatting per the specification and is not modelled.
* Requests issued to the host (wake-up scheduling/cancellation, tick-rate
  changes, buzzer playback, indicator lamps) are modelled as an explicit list
  of `HostReq` values returned next to the updated state.
* The current wall-clock time, obtained in C via `watch_rtc_get_date_time()`
  and unix-time conversion, is passed in as an explicit parameter.
-/

namespace SensorWatch

/-- The fields of the RTC's `watch_date_time` register: `year` counts from
2020, `month` is 1-12, `day` is 1-31. -/
structure WatchDateTime where
  year : Nat
  month : Nat
  day : Nat
  hour : Nat
  minute : Nat
  second : Nat
deriving DecidableEq, Repr

/-- Embedding of `_get_weekday_idx` from alarm_face.c lines 49-56: Zeller-style weekday
with Monday = 0.  The C code mutates the fields (`year += 20`, and for
January/February `month += 12; year--`) before evaluating one expression;
the mutation is inlined into the two branches here. -/
def _get_weekday_idx (dt : WatchDateTime) : Nat :=
  if dt.month ≤ 2 then
    (dt.day + 13 * ((dt.month + 12) + 1) / 5 + (dt.year + 20 - 1) + (dt.year + 20 - 1) / 4 + 525 - 2) % 7
  else
    (dt.day + 13 * (dt.month + 1) / 5 + (dt.year + 20) + (dt.year + 20) / 4 + 525 - 2) % 7

/-- Reference civil-calendar weekday (Monday = 0) for an absolute year `Y`,
month `m` (1-12) and day `d` (1-based), via the standard days-from-civil
(era-based) algorithm.  Day 0 of the era count is 0000-03-01; the offset 2
calibrates Monday = 0 (1970-01-01, day 719468, is a Thursday = index 3). -/
def civil_weekday (Y m d : Nat) : Nat :=
  if m ≤ 2 then
    ((Y - 1) / 400 * 146097 +
      ((Y - 1) % 400 * 365 + (Y - 1) % 400 / 4 - (Y - 1) % 400 / 100 +
        ((153 * (m + 9) + 2) / 5 + (d - 1))) + 2) % 7
  else
    (Y / 400 * 146097 +
      (Y % 400 * 365 + Y % 400 / 4 - Y % 400 / 100 +
        ((153 * (m - 3) + 2) / 5 + (d - 1))) + 2) % 7

/-- Gregorian month lengths. -/
def daysInMonth (y m : Nat) : Nat :=
  if m = 2 then (if (y % 4 = 0 ∧ y % 100 ≠ 0) ∨ y % 400 = 0 then 29 else 28)
  else if m = 4 ∨ m = 6 ∨ m = 9 ∨ m = 11 then 30 else 31

/-- The day-independent part of `_get_weekday_idx` (year offset `y` from
2020, month `m`), normalised so that the function value is
`(day + zeller_const y m) % 7`. -/
def zeller_const (y m : Nat) : Nat :=
  if m ≤ 2 then 13 * ((m + 12) + 1) / 5 + (y + 20 - 1) + (y + 20 - 1) / 4 + 523
  else 13 * (m + 1) / 5 + (y + 20) + (y + 20) / 4 + 523

/-- The day-independent part of `civil_weekday (2020 + y) m`, normalised so
that the function value is `(day + civil_const y m) % 7` for `day ≥ 1`. -/
def civil_const (y m : Nat) : Nat :=
  if m ≤ 2 then
    (2020 + y - 1) / 400 * 146097 + (2020 + y - 1) % 400 * 365 + (2020 + y - 1) % 400 / 4 -
      (2020 + y - 1) % 400 / 100 + (153 * (m + 9) + 2) / 5 + 1
  else
    (2020 + y) / 400 * 146097 + (2020 + y) % 400 * 365 + (2020 + y) % 400 / 4 -
      (2020 + y) % 400 / 100 + (153 * (m - 3) + 2) / 5 + 1

/-- The Zeller-style constant and the civil reference constant agree modulo 7
for every year 2020-2099 and month. -/
lemma zeller_civil_congr : ∀ y, y < 80 → ∀ m, m < 13 → 1 ≤ m →
    zeller_const y m % 7 = civil_const y m % 7 := by decide

lemma get_weekday_idx_eq_const (dt : WatchDateTime) :
    _get_weekday_idx dt = (dt.day + zeller_const dt.year dt.month) % 7 := by
  unfold _get_weekday_idx zeller_const
  by_cases hm : dt.month ≤ 2
  · simp only [if_pos hm]
    omega
  · simp only [if_neg hm]
    omega

lemma civil_weekday_eq_const (y m d : Nat) (hd : 1 ≤ d) :
    civil_weekday (2020 + y) m d = (d + civil_const y m) % 7 := by
  unfold civil_weekday civil_const
  by_cases hm : m ≤ 2
  · simp only [if_pos hm]
    omega
  · simp only [if_neg hm]
    omega

/-- C3: for every valid civil-calendar date in the supported range
(2020-2099, the century covered by the formula's fixed epoch offset),
`_get_weekday_idx` returns the actual civil weekday with Monday = 0. -/
theorem get_weekday_idx_correct (dt : WatchDateTime)
    (hy : dt.year < 80) (hm1 : 1 ≤ dt.month) (hm2 : dt.month ≤ 12)
    (hd1 : 1 ≤ dt.day) (hd2 : dt.day ≤ daysInMonth (2020 + dt.year) dt.month) :
    _get_weekday_idx dt = civil_weekday (2020 + dt.year) dt.month dt.day := by
  have h := zeller_civil_congr dt.year hy dt.month (by omega) hm1
  rw [get_weekday_idx_eq_const, civil_weekday_eq_const dt.year dt.month dt.day hd1]
  omega

/-- Witness for C3 at the claim's two sample dates: 2024-01-01 is a Monday
(index 0) and 2024-03-01 is a Friday (index 4). -/
theorem get_weekday_idx_correct_witness :
    _get_weekday_idx ⟨4, 1, 1, 0, 0, 0⟩ = 0 ∧ _get_weekday_idx ⟨4, 3, 1, 0, 0, 0⟩ = 4 :=
  ⟨(get_weekday_idx_correct ⟨4, 1, 1, 0, 0, 0⟩ (by decide) (by decide) (by decide)
      (by decide) (by decide)).trans (by decide),
   (get_weekday_idx_correct ⟨4, 3, 1, 0, 0, 0⟩ (by decide) (by decide) (by decide)
      (by decide) (by decide)).trans (by decide)⟩

/-! ## Alarm face data model (alarm_face.h / alarm_face.c) -/

def ALARM_DAY_STATES : Nat := 10
def ALARM_DAY_EACH_DAY : Nat := 7
def ALARM_DAY_WORKDAY : Nat := 8
def ALARM_DAY_WEEKEND : Nat := 9
def ALARM_SETTING_STATES : Nat := 5
def ALARM_MAX_BEEP_ROUNDS : Nat := 11

/-- The packed `alarm` configuration fields of `alarm_state_t`. -/
structure AlarmConfig where
  day : Nat
  hour : Nat
  minute : Nat
  beeps : Nat
  pitch : Nat
  enabled : Bool
deriving DecidableEq, Repr

/-- Embedding of `alarm_state_t`.  `alarm_handled_minute` is an `int8_t` with sentinel
`-1`, modelled as `Int`. -/
structure AlarmState where
  alarm : AlarmConfig
  is_setting : Bool
  setting_state : Nat
  alarm_quick_ticks : Bool
  alarm_handled_minute : Int
deriving DecidableEq, Repr

/-- Embedding of `alarm_face_wants_background_task` (alarm_face.c lines 196-219).  The C
code assigns `alarm_handled_minute = now.unit.minute` before the checks and
overwrites it with `-1` on every non-firing path past the dedup guard; the
two outcomes are written directly here.  The every-12-minutes refresh of the
host's advisory `alarm_enabled` settings bit (a write to the external
persisted settings, not to this state) is not modelled. -/
def alarm_face_wants_background_task (state : AlarmState) (now : WatchDateTime) :
    Bool × AlarmState :=
  if state.alarm_handled_minute = (now.minute : Int) then (false, state)
  else if state.alarm.enabled = true ∧ state.alarm.minute = now.minute ∧
          state.alarm.hour = now.hour ∧
          (state.alarm.day = ALARM_DAY_EACH_DAY ∨
           state.alarm.day = _get_weekday_idx now ∨
           (state.alarm.day = ALARM_DAY_WORKDAY ∧ _get_weekday_idx now < 5) ∨
           (state.alarm.day = ALARM_DAY_WEEKEND ∧ 5 ≤ _get_weekday_idx now)) then
    (true, { state with alarm_handled_minute := (now.minute : Int) })
  else
    (false, { state with alarm_handled_minute := -1 })

/-- Following the spec's words (§4.1 `dayPatternMatches`): EveryDay always
matches; a specific weekday pattern (0-6) matches only that weekday index;
Workdays matches indices 0-4; Weekend matches indices 5-6. -/
def dayPatternMatches (pattern weekday_idx : Nat) : Prop :=
  pattern = ALARM_DAY_EACH_DAY ∨
  (pattern ≤ 6 ∧ pattern = weekday_idx) ∨
  (pattern = ALARM_DAY_WORKDAY ∧ weekday_idx ≤ 4) ∨
  (pattern = ALARM_DAY_WEEKEND ∧ (weekday_idx = 5 ∨ weekday_idx = 6))

instance (p w : Nat) : Decidable (dayPatternMatches p w) := by
  unfold dayPatternMatches; infer_instance

lemma get_weekday_idx_lt_7 (dt : WatchDateTime) : _get_weekday_idx dt < 7 := by
  unfold _get_weekday_idx
  by_cases hm : dt.month ≤ 2
  · simp only [if_pos hm]; exact Nat.mod_lt _ (by decide)
  · simp only [if_neg hm]; exact Nat.mod_lt _ (by decide)

/-- C1: when the per-minute dedup guard is not triggered, the fire check
returns true exactly when the alarm is enabled, the minute and hour match,
and the day pattern matches today's weekday index. -/
theorem alarm_fire_check_iff (state : AlarmState) (now : WatchDateTime)
    (h : state.alarm_handled_minute ≠ (now.minute : Int)) :
    (alarm_face_wants_background_task state now).1 = true ↔
      (state.alarm.enabled = true ∧ state.alarm.minute = now.minute ∧
       state.alarm.hour = now.hour ∧
       dayPatternMatches state.alarm.day (_get_weekday_idx now)) := by
  have hw := get_weekday_idx_lt_7 now
  unfold alarm_face_wants_background_task
  rw [if_neg h]
  by_cases hc : (state.alarm.enabled = true ∧ state.alarm.minute = now.minute ∧
          state.alarm.hour = now.hour ∧
          (state.alarm.day = ALARM_DAY_EACH_DAY ∨
           state.alarm.day = _get_weekday_idx now ∨
           (state.alarm.day = ALARM_DAY_WORKDAY ∧ _get_weekday_idx now < 5) ∨
           (state.alarm.day = ALARM_DAY_WEEKEND ∧ 5 ≤ _get_weekday_idx now)))
  · rw [if_pos hc]
    simp only [true_iff]
    obtain ⟨h1, h2, h3, h4⟩ := hc
    refine ⟨h1, h2, h3, ?_⟩
    unfold dayPatternMatches
    unfold ALARM_DAY_EACH_DAY ALARM_DAY_WORKDAY ALARM_DAY_WEEKEND at h4 ⊢
    omega
  · rw [if_neg hc]
    simp only [Bool.false_eq_true, false_iff]
    intro ⟨h1, h2, h3, h4⟩
    apply hc
    refine ⟨h1, h2, h3, ?_⟩
    unfold dayPatternMatches at h4
    unfold ALARM_DAY_EACH_DAY ALARM_DAY_WORKDAY ALARM_DAY_WEEKEND at h4 ⊢
    omega

/-- Witness for C1: a concrete enabled EveryDay alarm at 07:30 fires on
2024-01-01 07:30. -/
theorem alarm_fire_check_iff_witness :
    (alarm_face_wants_background_task
        ⟨⟨7, 7, 30, 5, 1, true⟩, false, 0, false, -1⟩ ⟨4, 1, 1, 7, 30, 0⟩).1 = true :=
  (alarm_fire_check_iff ⟨⟨7, 7, 30, 5, 1, true⟩, false, 0, false, -1⟩
    ⟨4, 1, 1, 7, 30, 0⟩ (by decide)).mpr (by decide)

/-! ## C2: per-minute deduplication of the fire check -/

/-- A sequence of fire-check invocations, each preceded by an arbitrary
state change `u` (modelling interleaved configuration edits).  Returns the
number of invocations that returned true together with the final state. -/
def alarm_check_run : AlarmState → List ((AlarmState → AlarmState) × WatchDateTime) →
    Nat × AlarmState
  | s, [] => (0, s)
  | s, (u, now) :: rest =>
      let p := alarm_face_wants_background_task (u s) now
      let q := alarm_check_run p.2 rest
      ((if p.1 then 1 else 0) + q.1, q.2)

lemma wants_bg_of_handled (s : AlarmState) (now : WatchDateTime)
    (h : s.alarm_handled_minute = (now.minute : Int)) :
    alarm_face_wants_background_task s now = (false, s) := by
  unfold alarm_face_wants_background_task
  rw [if_pos h]

lemma wants_bg_handled_after_ne (s : AlarmState) (now : WatchDateTime)
    (hg : s.alarm_handled_minute ≠ (now.minute : Int)) :
    (alarm_face_wants_background_task s now).2.alarm_handled_minute = (now.minute : Int) ∨
    (alarm_face_wants_background_task s now).2.alarm_handled_minute = -1 := by
  unfold alarm_face_wants_background_task
  rw [if_neg hg]
  split
  · exact Or.inl rfl
  · exact Or.inr rfl

lemma wants_bg_true_handled (s : AlarmState) (now : WatchDateTime)
    (h : (alarm_face_wants_background_task s now).1 = true) :
    (alarm_face_wants_background_task s now).2.alarm_handled_minute = (now.minute : Int) := by
  unfold alarm_face_wants_background_task at h ⊢
  split at h
  next h1 => simp at h
  next h1 =>
    split at h
    next h2 => rw [if_neg h1, if_pos h2]
    next h2 => simp at h

lemma wants_bg_alarm_unchanged (s : AlarmState) (now : WatchDateTime) :
    (alarm_face_wants_background_task s now).2.alarm = s.alarm := by
  unfold alarm_face_wants_background_task
  split
  · rfl
  · split <;> rfl

lemma alarm_check_run_zero (M : Nat) :
    ∀ (l : List ((AlarmState → AlarmState) × WatchDateTime)) (s : AlarmState),
    s.alarm_handled_minute = (M : Int) →
    (∀ x ∈ l, x.2.minute = M) →
    (∀ x ∈ l, ∀ t, (x.1 t).alarm_handled_minute = t.alarm_handled_minute) →
    (alarm_check_run s l).1 = 0
  | [], s, _, _, _ => rfl
  | (u, now) :: rest, s, hs, hM, hU => by
      have hus : (u s).alarm_handled_minute = (now.minute : Int) := by
        rw [hU (u, now) (List.mem_cons_self _ _) s, hs, hM (u, now) (List.mem_cons_self _ _)]
      unfold alarm_check_run
      rw [wants_bg_of_handled (u s) now hus]
      simp only [if_neg (by simp : ¬(false = true)), Nat.zero_add]
      exact alarm_check_run_zero M rest (u s)
        (by rw [hus, hM (u, now) (List.mem_cons_self _ _)])
        (fun x hx => hM x (List.mem_cons_of_mem _ hx))
        (fun x hx => hU x (List.mem_cons_of_mem _ hx))

lemma alarm_check_run_le_one (M : Nat) :
    ∀ (l : List ((AlarmState → AlarmState) × WatchDateTime)) (s : AlarmState),
    (∀ x ∈ l, x.2.minute = M) →
    (∀ x ∈ l, ∀ t, (x.1 t).alarm_handled_minute = t.alarm_handled_minute) →
    (alarm_check_run s l).1 ≤ 1
  | [], _, _, _ => by simp [alarm_check_run]
  | (u, now) :: rest, s, hM, hU => by
      unfold alarm_check_run
      by_cases hfire : (alarm_face_wants_background_task (u s) now).1 = true
      · have hh := wants_bg_true_handled (u s) now hfire
        have : (alarm_check_run (alarm_face_wants_background_task (u s) now).2 rest).1 = 0 :=
          alarm_check_run_zero M rest _
            (by rw [hh, hM (u, now) (List.mem_cons_self _ _)])
            (fun x hx => hM x (List.mem_cons_of_mem _ hx))
            (fun x hx => hU x (List.mem_cons_of_mem _ hx))
        simp [hfire, this]
      · have : (alarm_check_run (alarm_face_wants_background_task (u s) now).2 rest).1 ≤ 1 :=
          alarm_check_run_le_one M rest _
            (fun x hx => hM x (List.mem_cons_of_mem _ hx))
            (fun x hx => hU x (List.mem_cons_of_mem _ hx))
        simp only [if_neg hfire, Nat.zero_add]
        exact this

lemma wants_bg_true_of_match (s : AlarmState) (now : WatchDateTime)
    (hg : s.alarm_handled_minute ≠ (now.minute : Int))
    (he : s.alarm.enabled = true) (hd : s.alarm.day = ALARM_DAY_EACH_DAY)
    (hm : s.alarm.minute = now.minute) (hh : s.alarm.hour = now.hour) :
    (alarm_face_wants_background_task s now).1 = true := by
  unfold alarm_face_wants_background_task
  rw [if_neg hg, if_pos ⟨he, hm, hh, Or.inl hd⟩]

/-- C2: (a) within one calendar minute, over any sequence of fire-check
invocations with arbitrary interleaved state changes that do not touch the
dedup field, at most one invocation returns true; (b) an EveryDay alarm that
fired at one invocation fires again at the same hour and minute the
following day, provided an invocation in a different minute happened in
between. -/
theorem alarm_fire_dedup_and_next_day :
    (∀ (M : Nat) (l : List ((AlarmState → AlarmState) × WatchDateTime)) (s : AlarmState),
      (∀ x ∈ l, x.2.minute = M) →
      (∀ x ∈ l, ∀ t, (x.1 t).alarm_handled_minute = t.alarm_handled_minute) →
      (alarm_check_run s l).1 ≤ 1) ∧
    (∀ (s : AlarmState) (now1 now2 now3 : WatchDateTime),
      s.alarm.enabled = true → s.alarm.day = ALARM_DAY_EACH_DAY →
      s.alarm.minute = now1.minute → s.alarm.hour = now1.hour →
      s.alarm_handled_minute ≠ (now1.minute : Int) →
      now2.minute ≠ now1.minute →
      now3.minute = now1.minute → now3.hour = now1.hour →
      (alarm_face_wants_background_task s now1).1 = true ∧
      (alarm_face_wants_background_task
        (alarm_face_wants_background_task
          (alarm_face_wants_background_task s now1).2 now2).2 now3).1 = true) := by
  constructor
  · exact fun M l s hM hU => alarm_check_run_le_one M l s hM hU
  · intro s now1 now2 now3 he hd hm hh hg h21 h31 h31h
    have h1 : (alarm_face_wants_background_task s now1).1 = true :=
      wants_bg_true_of_match s now1 hg he hd hm hh
    refine ⟨h1, ?_⟩
    set s1 := (alarm_face_wants_background_task s now1).2 with hs1
    set s2 := (alarm_face_wants_background_task s1 now2).2 with hs2
    have hcfg1 : s1.alarm = s.alarm := wants_bg_alarm_unchanged s now1
    have hcfg2 : s2.alarm = s.alarm := by
      rw [hs2, wants_bg_alarm_unchanged s1 now2, hcfg1]
    have hh1 : s1.alarm_handled_minute = (now1.minute : Int) :=
      wants_bg_true_handled s now1 h1
    have hg2 : s1.alarm_handled_minute ≠ (now2.minute : Int) := by
      rw [hh1]; intro hcon; exact h21 (by exact_mod_cast hcon.symm)
    have hh2 : s2.alarm_handled_minute ≠ (now3.minute : Int) := by
      rcases wants_bg_handled_after_ne s1 now2 hg2 with hc | hc <;> rw [← hs2] at hc <;> omega
    exact wants_bg_true_of_match s2 now3 hh2
      (hcfg2 ▸ he) (hcfg2 ▸ hd)
      (by rw [hcfg2, hm, h31]) (by rw [hcfg2, hh, h31h])

/-- Witness for C2: two same-minute invocations yield at most one fire, and
an EveryDay 07:30 alarm that fired on 2024-01-01 fires again on 2024-01-02
at 07:30 after an intervening 07:31 check. -/
theorem alarm_fire_dedup_and_next_day_witness :
    (alarm_check_run ⟨⟨7, 7, 30, 5, 1, true⟩, false, 0, false, -1⟩
      [(id, ⟨4, 1, 1, 7, 30, 0⟩), (id, ⟨4, 1, 1, 7, 30, 40⟩)]).1 ≤ 1 ∧
    (alarm_face_wants_background_task
      (alarm_face_wants_background_task
        (alarm_face_wants_background_task ⟨⟨7, 7, 30, 5, 1, true⟩, false, 0, false, -1⟩
          ⟨4, 1, 1, 7, 30, 0⟩).2 ⟨4, 1, 1, 7, 31, 0⟩).2 ⟨4, 1, 2, 7, 30, 0⟩).1 = true := by
  refine ⟨alarm_fire_dedup_and_next_day.1 30 _ _
    (by intro x hx; fin_cases hx <;> rfl)
    (by intro x hx t; fin_cases hx <;> rfl), ?_⟩
  exact (alarm_fire_dedup_and_next_day.2 ⟨⟨7, 7, 30, 5, 1, true⟩, false, 0, false, -1⟩
    ⟨4, 1, 1, 7, 30, 0⟩ ⟨4, 1, 1, 7, 31, 0⟩ ⟨4, 1, 2, 7, 30, 0⟩
    rfl rfl rfl rfl (by decide) (by decide) rfl rfl).2

/-! ## C8: alarm background-fire signal -/

inductive BuzzerNote where
  | BUZZER_NOTE_B6
  | BUZZER_NOTE_C7
  | BUZZER_NOTE_C8
  | BUZZER_NOTE_A8
  | BUZZER_NOTE_REST
deriving DecidableEq, Repr

/-- The table `_buzzer_notes[3] = {BUZZER_NOTE_B6, BUZZER_NOTE_C8, BUZZER_NOTE_A8}`
(alarm_face.c line 45), indexed by the pitch setting 0-2. -/
def _buzzer_notes : Nat → BuzzerNote
  | 0 => BuzzerNote.BUZZER_NOTE_B6
  | 1 => BuzzerNote.BUZZER_NOTE_C8
  | _ => BuzzerNote.BUZZER_NOTE_A8

/-- Requests issued to the buzzer during the alarm's background fire. -/
inductive BuzzerAction where
  | play_note (note : BuzzerNote) (duration_ms : Nat)
  | play_alarm_beeps (rounds : Nat) (note : BuzzerNote)
  | enable_buzzer
  | disable_buzzer
deriving DecidableEq, Repr

/-- Embedding of `_alarm_play_short_beep` (alarm_face.c lines 137-142): a short double
beep at the configured pitch. -/
def _alarm_play_short_beep (pitch_idx : Nat) : List BuzzerAction :=
  [BuzzerAction.play_note (_buzzer_notes pitch_idx) 50,
   BuzzerAction.play_note BuzzerNote.BUZZER_NOTE_REST 50,
   BuzzerAction.play_note (_buzzer_notes pitch_idx) 70]

/-- The `EVENT_BACKGROUND_TASK` branch of `alarm_face_loop` (alarm_face.c
lines 333-350), as the list of buzzer requests it issues.
`buzzer_enabled` is the value of `watch_is_buzzer_or_led_enabled()`. -/
def alarm_face_loop_background_task (state : AlarmState) (buzzer_enabled : Bool) :
    List BuzzerAction :=
  if state.alarm.beeps = 0 then
    if buzzer_enabled then
      _alarm_play_short_beep state.alarm.pitch
    else
      [BuzzerAction.enable_buzzer] ++ _alarm_play_short_beep state.alarm.pitch ++
        [BuzzerAction.disable_buzzer]
  else
    [BuzzerAction.play_alarm_beeps
      (if state.alarm.beeps = ALARM_MAX_BEEP_ROUNDS - 1 then 20 else state.alarm.beeps)
      (_buzzer_notes state.alarm.pitch)]

/-- C8: the signal played on an alarm background fire is determined by
`beeps`: 0 plays the short double-beep (wrapped in a buzzer enable/disable
pair when the buzzer is off), 1-9 play that many standard rounds, and 10
(the `ALARM_MAX_BEEP_ROUNDS - 1` "long" setting) plays the long signal of 20
rounds; every case uses the configured pitch's buzzer note. -/
theorem alarm_background_signal (state : AlarmState) (buzzer_enabled : Bool) :
    (state.alarm.beeps = 0 →
      alarm_face_loop_background_task state buzzer_enabled =
        (if buzzer_enabled then _alarm_play_short_beep state.alarm.pitch
         else [BuzzerAction.enable_buzzer] ++ _alarm_play_short_beep state.alarm.pitch ++
           [BuzzerAction.disable_buzzer])) ∧
    (1 ≤ state.alarm.beeps → state.alarm.beeps ≤ 9 →
      alarm_face_loop_background_task state buzzer_enabled =
        [BuzzerAction.play_alarm_beeps state.alarm.beeps (_buzzer_notes state.alarm.pitch)]) ∧
    (state.alarm.beeps = 10 →
      alarm_face_loop_background_task state buzzer_enabled =
        [BuzzerAction.play_alarm_beeps 20 (_buzzer_notes state.alarm.pitch)]) ∧
    (_buzzer_notes 0 = BuzzerNote.BUZZER_NOTE_B6 ∧
     _buzzer_notes 1 = BuzzerNote.BUZZER_NOTE_C8 ∧
     _buzzer_notes 2 = BuzzerNote.BUZZER_NOTE_A8) := by
  refine ⟨fun h0 => ?_, fun h1 h9 => ?_, fun h10 => ?_, rfl, rfl, rfl⟩
  · unfold alarm_face_loop_background_task
    rw [if_pos h0]
  · unfold alarm_face_loop_background_task
    rw [if_neg (by omega), if_neg (by unfold ALARM_MAX_BEEP_ROUNDS; omega)]
  · unfold alarm_face_loop_background_task
    rw [if_neg (by omega), if_pos (by unfold ALARM_MAX_BEEP_ROUNDS; omega)]

/-- Witness for C8 at beeps = 0, 5 and 10 (pitch 1, buzzer enabled). -/
theorem alarm_background_signal_witness :
    alarm_face_loop_background_task ⟨⟨7, 7, 30, 0, 1, true⟩, false, 0, false, -1⟩ true =
      _alarm_play_short_beep 1 ∧
    alarm_face_loop_background_task ⟨⟨7, 7, 30, 5, 1, true⟩, false, 0, false, -1⟩ true =
      [BuzzerAction.play_alarm_beeps 5 (_buzzer_notes 1)] ∧
    alarm_face_loop_background_task ⟨⟨7, 7, 30, 10, 1, true⟩, false, 0, false, -1⟩ true =
      [BuzzerAction.play_alarm_beeps 20 (_buzzer_notes 1)] :=
  ⟨((alarm_background_signal ⟨⟨7, 7, 30, 0, 1, true⟩, false, 0, false, -1⟩ true).1 rfl).trans
      (by decide),
   ((alarm_background_signal ⟨⟨7, 7, 30, 5, 1, true⟩, false, 0, false, -1⟩ true).2.1
      (by decide) (by decide)),
   ((alarm_background_signal ⟨⟨7, 7, 30, 10, 1, true⟩, false, 0, false, -1⟩ true).2.2.1 rfl)⟩

/-! ## Timer face data model (timer_face.h / timer_face.c)

The timer duration is a bit-packed union in C (`seconds` bits 0-7,
`minutes` bits 8-15, `hours` bits 16-23, `repeat` bit 24); it is modelled as
a structure, with `timer_value` recovering the packed `value` member used by
the C code's `value == 0` and `value & 0xFFFFFF` tests. -/

inductive TimerMode where
  | waiting
  | running
  | pausing
  | setting
deriving DecidableEq, Repr

structure TimerInfo where
  hours : Nat
  minutes : Nat
  seconds : Nat
  repeat_flag : Bool
deriving DecidableEq, Repr

/-- The packed `timer.value` union member. -/
def timer_value (t : TimerInfo) : Nat :=
  t.seconds + 256 * t.minutes + 65536 * t.hours +
    16777216 * (if t.repeat_flag then 1 else 0)

/-- Embedding of `timer_state_t`.  `pausing_seconds` is a `uint8_t` and wraps mod 256.
Timestamps are unix seconds (`uint32_t` in C; the wrap at 2^32, in the year
2106, is outside the modelled range). -/
structure TimerState where
  timer : TimerInfo
  mode : TimerMode
  now_ts : Nat
  target_ts : Nat
  paused_left : Nat
  pausing_seconds : Nat
  loop_count : Nat
  settings_state : Nat
  erase_timer_flag : Bool
  quick_cycle : Bool
  watch_face_index : Nat
deriving DecidableEq, Repr

/-- The timer face together with the process-wide `_beeps_to_play` counter. -/
structure TimerWorld where
  state : TimerState
  beeps_to_play : Nat
deriving DecidableEq, Repr

/-- The sound sequences played by the timer face. -/
inductive SoundSeq where
  | beep
  | start
deriving DecidableEq, Repr

/-- Requests issued to the host by the timer face. -/
inductive HostReq where
  | schedule_background_task (face_index target_ts : Nat)
  | cancel_background_task (face_index : Nat)
  | cancel_background_task_current
  | request_tick_frequency (hz : Nat)
  | set_indicator_bell
  | clear_indicator_bell
  | play_sequence (seq : SoundSeq)
  | play_note (note : BuzzerNote) (duration_ms : Nat)
  | illuminate_led
  | move_to_face (n : Nat)
deriving DecidableEq, Repr

/-- Modelled from the spec: `watch_utility_offset_timestamp` (declared in
`watch_utility.h`, outside the embedded sources) returns the absolute
timestamp `base + h*3600 + m*60 + s` (spec §4.1 `offsetTimestamp`). -/
def watch_utility_offset_timestamp (base h m s : Nat) : Nat :=
  base + h * 3600 + m * 60 + s

/-- Embedding of `_start` (timer_face.c lines 50-66).  The current RTC time, read in C
via `watch_rtc_get_date_time()` and converted to unix time, is the `now_ts`
parameter. -/
def _start (state : TimerState) (now_ts : Nat) (with_beep : Bool) :
    TimerState × List HostReq :=
  if timer_value state.timer = 0 then (state, [])
  else
    let target_ts :=
      if state.mode = TimerMode.pausing then now_ts + state.paused_left
      else
        watch_utility_offset_timestamp now_ts state.timer.hours state.timer.minutes
          state.timer.seconds
    ({ state with now_ts := now_ts, target_ts := target_ts, mode := TimerMode.running },
     [HostReq.schedule_background_task state.watch_face_index target_ts,
      HostReq.set_indicator_bell] ++
       (if with_beep then [HostReq.play_sequence SoundSeq.start] else []))

/-- Embedding of `_reset` (timer_face.c lines 128-132). -/
def _reset (state : TimerState) : TimerState × List HostReq :=
  ({ state with mode := TimerMode.waiting },
   [HostReq.cancel_background_task state.watch_face_index,
    HostReq.clear_indicator_bell])

/-- Embedding of `_resume_setting` (timer_face.c lines 134-138). -/
def _resume_setting (state : TimerState) : TimerState × List HostReq :=
  ({ state with settings_state := 0, mode := TimerMode.waiting },
   [HostReq.request_tick_frequency 1])

/-- Embedding of `_settings_increment` (timer_face.c lines 140-162). -/
def _settings_increment (state : TimerState) : TimerState :=
  match state.settings_state with
  | 0 => { state with erase_timer_flag := !state.erase_timer_flag }
  | 1 => { state with timer := { state.timer with hours := (state.timer.hours + 1) % 24 } }
  | 2 => { state with timer := { state.timer with minutes := (state.timer.minutes + 1) % 60 } }
  | 3 => { state with timer := { state.timer with seconds := (state.timer.seconds + 1) % 60 } }
  | 4 => { state with timer := { state.timer with repeat_flag := !state.timer.repeat_flag } }
  | _ => state

/-- Embedding of `_abort_quick_cycle` (timer_face.c lines 164-169). -/
def _abort_quick_cycle (state : TimerState) : TimerState × List HostReq :=
  if state.quick_cycle then
    ({ state with quick_cycle := false }, [HostReq.request_tick_frequency 4])
  else (state, [])

/-- Embedding of `_check_for_signal` (timer_face.c lines 171-177), acting on the
`_beeps_to_play` counter. -/
def _check_for_signal (beeps_to_play : Nat) : Bool × Nat :=
  if beeps_to_play ≠ 0 then (true, 0) else (false, beeps_to_play)

/-- The initial timer state installed by `timer_face_setup` (timer_face.c
lines 179-190): zero-initialised, with the packed timer value
`_default_timer_value = 0x000100` (one minute). -/
def timer_face_setup (watch_face_index : Nat) : TimerWorld :=
  { state :=
      { timer := { hours := 0, minutes := 1, seconds := 0, repeat_flag := false },
        mode := TimerMode.waiting, now_ts := 0, target_ts := 0, paused_left := 0,
        pausing_seconds := 0, loop_count := 0, settings_state := 0,
        erase_timer_flag := false, quick_cycle := false,
        watch_face_index := watch_face_index },
    beeps_to_play := 0 }

/-- The movement events handled by `timer_face_loop`.  `tick` carries the
level of the alarm button pin (`watch_get_pin_level(BTN_ALARM)`), read only
in the quick-cycle branch. -/
inductive TimerEvent where
  | activate
  | tick (btn_alarm_down : Bool)
  | light_button_up
  | alarm_button_up
  | light_long_press
  | background_task
  | alarm_long_press
  | alarm_long_up
  | timeout
deriving DecidableEq, Repr

/-- Embedding of `timer_face_loop` (timer_face.c lines 207-339).  `now_ts` is the current
RTC time as unix seconds (read only on the `_start` paths);
`button_should_sound` is the persisted `settings->bit.button_should_sound`.
Display rendering (`_draw`) and LED illumination are output-only; the
`illuminate_led` request is kept, the rest of the drawing is not modelled. -/
def timer_face_loop (event : TimerEvent) (now_ts : Nat) (button_should_sound : Bool)
    (w : TimerWorld) : TimerWorld × List HostReq :=
  let state := w.state
  match event with
  | TimerEvent.activate => (w, [])
  | TimerEvent.tick btn_alarm_down =>
      if state.mode = TimerMode.running then
        ({ w with state := { state with now_ts := state.now_ts + 1 } }, [])
      else if state.mode = TimerMode.pausing then
        ({ w with state := { state with pausing_seconds := (state.pausing_seconds + 1) % 256 } }, [])
      else if state.quick_cycle then
        if btn_alarm_down then ({ w with state := _settings_increment state }, [])
        else
          let p := _abort_quick_cycle state
          ({ w with state := p.1 }, p.2)
      else (w, [])
  | TimerEvent.light_button_up =>
      match state.mode with
      | TimerMode.setting =>
          let state :=
            if state.erase_timer_flag then
              { state with
                  timer := { hours := 0, minutes := 0, seconds := 0, repeat_flag := false },
                  erase_timer_flag := false }
            else state
          let state := { state with settings_state := (state.settings_state + 1) % 5 }
          if state.settings_state = 0 then
            let p := _resume_setting state
            ({ w with state := p.1 }, p.2)
          else if state.settings_state = 4 ∧ timer_value state.timer % 16777216 = 0 then
            ({ w with state := { state with settings_state := 1 } }, [])
          else ({ w with state := state }, [])
      | _ => (w, [HostReq.illuminate_led])
  | TimerEvent.alarm_button_up =>
      let p := _abort_quick_cycle state
      let state := p.1
      let q := _check_for_signal w.beeps_to_play
      if q.1 then ({ state := state, beeps_to_play := q.2 }, p.2)
      else
        match state.mode with
        | TimerMode.running =>
            ({ state :=
                { state with
                    mode := TimerMode.pausing
                    pausing_seconds := 0
                    paused_left := state.target_ts - state.now_ts },
               beeps_to_play := q.2 },
             p.2 ++ [HostReq.cancel_background_task_current])
        | TimerMode.pausing =>
            let r := _start state now_ts false
            ({ state := r.1, beeps_to_play := q.2 }, p.2 ++ r.2)
        | TimerMode.waiting => ({ state := state, beeps_to_play := q.2 }, p.2)
        | TimerMode.setting =>
            ({ state := _settings_increment state, beeps_to_play := q.2 }, p.2)
  | TimerEvent.light_long_press =>
      if state.mode = TimerMode.waiting then
        ({ w with state :=
            { state with
                mode := TimerMode.setting
                settings_state := 0
                erase_timer_flag := false } },
         [HostReq.request_tick_frequency 4])
      else if state.mode = TimerMode.setting then
        let p := _resume_setting state
        ({ w with state := p.1 }, p.2)
      else (w, [])
  | TimerEvent.background_task =>
      let p := _reset state
      if p.1.timer.repeat_flag then
        let s2 := { p.1 with loop_count := (p.1.loop_count + 1) % 10 }
        let r := _start s2 now_ts false
        ({ state := r.1, beeps_to_play := 4 },
         [HostReq.play_sequence SoundSeq.beep] ++ p.2 ++ r.2)
      else
        ({ state := { p.1 with loop_count := 0 }, beeps_to_play := 4 },
         [HostReq.play_sequence SoundSeq.beep] ++ p.2)
  | TimerEvent.alarm_long_press =>
      match state.mode with
      | TimerMode.setting =>
          if state.settings_state = 1 ∨ state.settings_state = 2 ∨
              state.settings_state = 3 then
            ({ w with state := { state with quick_cycle := true } },
             [HostReq.request_tick_frequency 8])
          else (w, [])
      | TimerMode.waiting =>
          let r := _start state now_ts true
          ({ w with state := r.1 }, r.2)
      | _ =>
          let p := _reset state
          ({ w with state := { p.1 with loop_count := 0 } },
           p.2 ++
             (if button_should_sound then
               [HostReq.play_note BuzzerNote.BUZZER_NOTE_C7 50]
              else []))
  | TimerEvent.alarm_long_up =>
      let p := _abort_quick_cycle state
      ({ w with state := p.1 }, p.2)
  | TimerEvent.timeout =>
      let p := _abort_quick_cycle state
      ({ w with state := p.1 }, p.2 ++ [HostReq.move_to_face 0])

/-- Embedding of `timer_face_resign` (timer_face.c lines 341-348): only an in-progress
settings edit is cancelled; nothing else is touched and no host request is
issued. -/
def timer_face_resign (w : TimerWorld) : TimerWorld × List HostReq :=
  if w.state.mode = TimerMode.setting then
    ({ w with state := { w.state with settings_state := 0, mode := TimerMode.waiting } }, [])
  else (w, [])

/-! ## C4: starting with an unset duration -/

/-- Counterexample to C4 as stated: a state whose duration fields are all
zero but whose repeat bit is set has packed value `0x1000000 ≠ 0`, so
`_start` does proceed — it moves to running and schedules a wake-up. -/
theorem start_zero_duration_counterexample :
    (_start ⟨⟨0, 0, 0, true⟩, TimerMode.waiting, 0, 0, 0, 0, 0, 0, false, false, 0⟩
        5 false).1 ≠
      ⟨⟨0, 0, 0, true⟩, TimerMode.waiting, 0, 0, 0, 0, 0, 0, false, false, 0⟩ ∧
    (_start ⟨⟨0, 0, 0, true⟩, TimerMode.waiting, 0, 0, 0, 0, 0, 0, false, false, 0⟩
        5 false).2 =
      [HostReq.schedule_background_task 0 5, HostReq.set_indicator_bell] := by
  constructor
  · intro h
    exact absurd (congrArg TimerState.mode h) (by decide)
  · decide

/-- C4 (amended): for every timer state whose packed timer value is zero —
equivalently whose duration fields are all zero AND whose repeat flag is
false — `_start` returns the state unchanged and issues no request. -/
theorem start_zero_duration_refused (state : TimerState) (now_ts : Nat) (with_beep : Bool)
    (hh : state.timer.hours = 0) (hm : state.timer.minutes = 0)
    (hs : state.timer.seconds = 0) (hr : state.timer.repeat_flag = false) :
    _start state now_ts with_beep = (state, []) := by
  unfold _start
  rw [if_pos (by unfold timer_value; rw [hh, hm, hs, hr]; rfl)]

/-- Witness for C4 (amended) at a concrete unset state. -/
theorem start_zero_duration_refused_witness :
    _start ⟨⟨0, 0, 0, false⟩, TimerMode.waiting, 0, 0, 0, 0, 0, 0, false, false, 0⟩ 5 true =
      (⟨⟨0, 0, 0, false⟩, TimerMode.waiting, 0, 0, 0, 0, 0, 0, false, false, 0⟩, []) :=
  start_zero_duration_refused _ 5 true rfl rfl rfl rfl

/-! ## C9: resign cancels only a settings edit -/

/-- C9: a resign event in Setting mode returns to Waiting with the cursor
reset to 0; in every mode it issues no host request (in particular no
wake-up cancellation), leaves the timer configuration, target timestamp,
current timestamp, paused remainder and loop count unchanged, preserves the
mode of a Running or Pausing timer, and does not clear the pending beep
countdown. -/
theorem timer_resign_frame (w : TimerWorld) :
    (w.state.mode = TimerMode.setting →
      (timer_face_resign w).1.state.mode = TimerMode.waiting ∧
      (timer_face_resign w).1.state.settings_state = 0) ∧
    (timer_face_resign w).2 = [] ∧
    (timer_face_resign w).1.state.timer = w.state.timer ∧
    (timer_face_resign w).1.state.target_ts = w.state.target_ts ∧
    (timer_face_resign w).1.state.now_ts = w.state.now_ts ∧
    (timer_face_resign w).1.state.paused_left = w.state.paused_left ∧
    (timer_face_resign w).1.state.loop_count = w.state.loop_count ∧
    (w.state.mode = TimerMode.running →
      (timer_face_resign w).1.state.mode = TimerMode.running) ∧
    (w.state.mode = TimerMode.pausing →
      (timer_face_resign w).1.state.mode = TimerMode.pausing) ∧
    (timer_face_resign w).1.beeps_to_play = w.beeps_to_play := by
  unfold timer_face_resign
  by_cases h : w.state.mode = TimerMode.setting
  · rw [if_pos h]
    refine ⟨fun _ => ⟨rfl, rfl⟩, rfl, rfl, rfl, rfl, rfl, rfl, ?_, ?_, rfl⟩
    · intro hr; rw [h] at hr; exact absurd hr (by decide)
    · intro hr; rw [h] at hr; exact absurd hr (by decide)
  · rw [if_neg h]
    exact ⟨fun hc => absurd hc h, rfl, rfl, rfl, rfl, rfl, rfl, fun hr => hr, fun hr => hr, rfl⟩

/-- Witness for C9: resigning a concrete Setting-mode world and a concrete
Running-mode world. -/
theorem timer_resign_frame_witness :
    (timer_face_resign ⟨⟨⟨0, 1, 0, false⟩, TimerMode.setting, 0, 0, 0, 0, 0, 3, false, false, 0⟩,
        4⟩).1.state.mode = TimerMode.waiting ∧
    (timer_face_resign ⟨⟨⟨0, 1, 0, false⟩, TimerMode.running, 10, 70, 0, 0, 0, 0, false, false, 0⟩,
        4⟩).1.state.target_ts = 70 := by
  constructor
  · exact ((timer_resign_frame
      ⟨⟨⟨0, 1, 0, false⟩, TimerMode.setting, 0, 0, 0, 0, 0, 3, false, false, 0⟩, 4⟩).1 rfl).1
  · exact (timer_resign_frame
      ⟨⟨⟨0, 1, 0, false⟩, TimerMode.running, 10, 70, 0, 0, 0, 0, false, false, 0⟩, 4⟩).2.2.2.1

/-! ## C6: background-fire (expiry) behaviour -/

lemma timer_value_ne_zero_of_repeat (t : TimerInfo) (h : t.repeat_flag = true) :
    timer_value t ≠ 0 := by
  simp [timer_value, h]

/-- One background fire with the repeat flag set: restarts (Running) with a
fresh target `now + duration`, increments the loop counter mod 10 and keeps
the configuration. -/
lemma bg_fire_repeat (w : TimerWorld) (t : Nat) (bss : Bool)
    (hr : w.state.timer.repeat_flag = true) :
    (timer_face_loop TimerEvent.background_task t bss w).1.state.mode = TimerMode.running ∧
    (timer_face_loop TimerEvent.background_task t bss w).1.state.loop_count =
      (w.state.loop_count + 1) % 10 ∧
    (timer_face_loop TimerEvent.background_task t bss w).1.state.timer = w.state.timer ∧
    (timer_face_loop TimerEvent.background_task t bss w).1.state.target_ts =
      watch_utility_offset_timestamp t w.state.timer.hours w.state.timer.minutes
        w.state.timer.seconds := by
  have hne := timer_value_ne_zero_of_repeat w.state.timer hr
  simp only [timer_face_loop, _reset, _start]
  simp [hr, hne]

/-- A sequence of consecutive background fires at the given timestamps. -/
def runBGFires : TimerWorld → List Nat → TimerWorld
  | w, [] => w
  | w, t :: ts => runBGFires (timer_face_loop TimerEvent.background_task t false w).1 ts

lemma runBGFires_repeat (ts : List Nat) : ∀ (w : TimerWorld),
    w.state.timer.repeat_flag = true → ts ≠ [] →
    (runBGFires w ts).state.loop_count = (w.state.loop_count + ts.length) % 10 ∧
    (runBGFires w ts).state.timer = w.state.timer ∧
    (runBGFires w ts).state.mode = TimerMode.running := by
  induction ts with
  | nil => intro _ _ hne; exact absurd rfl hne
  | cons t ts ih =>
      intro w hr _
      obtain ⟨hmode, hloop, htimer, _⟩ := bg_fire_repeat w t false hr
      by_cases hts : ts = []
      · subst hts
        simp only [runBGFires]
        exact ⟨by rw [hloop]; simp, htimer, hmode⟩
      · have step := ih (timer_face_loop TimerEvent.background_task t false w).1
          (by rw [htimer]; exact hr) hts
        simp only [runBGFires]
        refine ⟨?_, by rw [step.2.1, htimer], step.2.2⟩
        rw [step.1, hloop]
        simp only [List.length_cons]
        omega

/-- C6: with repeat set and loopCount initially 0, after N consecutive
background fires the loop counter is N mod 10 and the timer is Running
again; each repeat fire computes a fresh target `now + duration`; without
repeat a background fire returns to Waiting with loopCount 0. -/
theorem timer_repeat_loop_count :
    (∀ (w : TimerWorld) (ts : List Nat),
      w.state.timer.repeat_flag = true → w.state.loop_count = 0 →
      (runBGFires w ts).state.loop_count = ts.length % 10 ∧
      (ts ≠ [] → (runBGFires w ts).state.mode = TimerMode.running)) ∧
    (∀ (w : TimerWorld) (t : Nat) (bss : Bool),
      w.state.timer.repeat_flag = true →
      (timer_face_loop TimerEvent.background_task t bss w).1.state.target_ts =
        watch_utility_offset_timestamp t w.state.timer.hours w.state.timer.minutes
          w.state.timer.seconds) ∧
    (∀ (w : TimerWorld) (t : Nat) (bss : Bool),
      w.state.timer.repeat_flag = false →
      (timer_face_loop TimerEvent.background_task t bss w).1.state.mode = TimerMode.waiting ∧
      (timer_face_loop TimerEvent.background_task t bss w).1.state.loop_count = 0) := by
  refine ⟨?_, ?_, ?_⟩
  · intro w ts hr hl
    by_cases hts : ts = []
    · subst hts
      exact ⟨by unfold runBGFires; rw [hl]; simp, fun h => absurd rfl h⟩
    · obtain ⟨hloop, _, hmode⟩ := runBGFires_repeat ts w hr hts
      exact ⟨by rw [hloop, hl]; simp, fun _ => hmode⟩
  · intro w t bss hr
    exact (bg_fire_repeat w t bss hr).2.2.2
  · intro w t bss hr
    simp only [timer_face_loop, _reset]
    simp [hr]

/-- Witness for C6: three consecutive fires of a repeating one-minute timer
reach loopCount 3 while Running, and a single fire of a non-repeating timer
returns to Waiting with loopCount 0. -/
theorem timer_repeat_loop_count_witness :
    (runBGFires ⟨⟨⟨0, 1, 0, true⟩, TimerMode.running, 0, 60, 0, 0, 0, 0, false, false, 0⟩, 0⟩
      [60, 120, 180]).state.loop_count = 3 ∧
    (timer_face_loop TimerEvent.background_task 60 false
      ⟨⟨⟨0, 1, 0, false⟩, TimerMode.running, 0, 60, 0, 0, 0, 0, false, false, 0⟩,
        0⟩).1.state.mode = TimerMode.waiting := by
  constructor
  · exact (timer_repeat_loop_count.1
      ⟨⟨⟨0, 1, 0, true⟩, TimerMode.running, 0, 60, 0, 0, 0, 0, false, false, 0⟩, 0⟩
      [60, 120, 180] rfl rfl).1
  · exact (timer_repeat_loop_count.2.2
      ⟨⟨⟨0, 1, 0, false⟩, TimerMode.running, 0, 60, 0, 0, 0, 0, false, false, 0⟩, 0⟩
      60 false rfl).1

/-! ## C7: settings cursor advance -/

/-- The erase flag can only be set while the cursor is at position 0: this
invariant is established on entering Setting mode (`erase_timer_flag` is
cleared) and preserved by every event, since `_settings_increment` toggles
the flag only at cursor 0 and a cursor advance always applies-and-clears a
set flag. -/
def EraseFlagInv (s : TimerState) : Prop :=
  s.mode = TimerMode.setting → s.erase_timer_flag = true → s.settings_state = 0

lemma erase_flag_inv_increment (s : TimerState) (h : EraseFlagInv s) :
    EraseFlagInv (_settings_increment s) := by
  unfold EraseFlagInv at *
  unfold _settings_increment
  rcases hss : s.settings_state with _ | _ | _ | _ | _ | n <;> simp_all

lemma erase_flag_inv_abort (s : TimerState) (h : EraseFlagInv s) :
    EraseFlagInv (_abort_quick_cycle s).1 := by
  unfold EraseFlagInv at *
  unfold _abort_quick_cycle
  split_ifs <;> simp_all

lemma erase_flag_inv_start (s : TimerState) (now_ts : Nat) (b : Bool)
    (h : EraseFlagInv s) : EraseFlagInv (_start s now_ts b).1 := by
  unfold _start
  split_ifs with h0
  · exact h
  all_goals intro hm
  all_goals simp at hm

lemma erase_flag_inv_reset (s : TimerState) :
    EraseFlagInv (_reset s).1 := by
  intro hm
  simp [_reset] at hm

lemma erase_flag_inv_preserved (e : TimerEvent) (now_ts : Nat) (bss : Bool)
    (w : TimerWorld) (h : EraseFlagInv w.state) :
    EraseFlagInv (timer_face_loop e now_ts bss w).1.state := by
  cases e with
  | activate => exact h
  | tick btn_alarm_down =>
      simp only [timer_face_loop]
      split_ifs with h1 h2 h3 h4
      · intro hm; simp [h1] at hm
      · intro hm; simp [h2] at hm
      · exact erase_flag_inv_increment w.state h
      · exact erase_flag_inv_abort w.state h
      · exact h
  | light_button_up =>
      rcases hmode : w.state.mode with _ | _ | _ | _ <;>
        simp only [timer_face_loop, hmode]
      · exact h
      · exact h
      · exact h
      · by_cases hflag : w.state.erase_timer_flag = true <;>
          simp only [hflag, Bool.false_eq_true, if_true, if_false, ite_true, ite_false] <;>
          split_ifs <;>
          intro hm hf <;>
          simp_all [_resume_setting]
  | alarm_button_up =>
      have habort := erase_flag_inv_abort w.state h
      simp only [timer_face_loop]
      by_cases hq : (_check_for_signal w.beeps_to_play).1 = true
      · simp only [hq, if_true]
        exact habort
      · simp only [hq, Bool.false_eq_true, if_false]
        rcases hmode : (_abort_quick_cycle w.state).1.mode with _ | _ | _ | _ <;>
          simp only [hmode]
        · exact habort
        · intro hm; simp at hm
        · exact erase_flag_inv_start _ now_ts false habort
        · exact erase_flag_inv_increment _ habort
  | light_long_press =>
      simp only [timer_face_loop]
      split_ifs with h1 h2
      · intro _ hf; simp at hf
      · intro hm; simp [_resume_setting] at hm
      · exact h
  | background_task =>
      simp only [timer_face_loop]
      split_ifs with h1
      · exact erase_flag_inv_start _ now_ts false
          (by intro hm; simp [_reset] at hm)
      · intro hm; simp [_reset] at hm
  | alarm_long_press =>
      rcases hmode : w.state.mode with _ | _ | _ | _ <;>
        simp only [timer_face_loop, hmode]
      · exact erase_flag_inv_start _ now_ts true h
      · intro hm; simp [_reset] at hm
      · intro hm; simp [_reset] at hm
      · split_ifs
        · intro hm hf
          exact h hmode hf
        · exact h
  | alarm_long_up => exact erase_flag_inv_abort w.state h
  | timeout => exact erase_flag_inv_abort w.state h

/-- C7: while Setting, a short-press cursor advance moves the cursor to
`(cursor+1) mod 5` — except that reaching position 4 with an unset duration
skips to position 1, and wrapping to 0 also leaves Setting mode — applies a
pending erase request exactly on the advance that leaves cursor 0 (under the
erase-flag invariant), and always clears the erase flag. -/
theorem timer_settings_cursor_advance (w : TimerWorld) (now_ts : Nat) (bss : Bool)
    (hmode : w.state.mode = TimerMode.setting)
    (hc : w.state.settings_state ≤ 4)
    (hinv : w.state.erase_timer_flag = true → w.state.settings_state = 0) :
    (timer_face_loop TimerEvent.light_button_up now_ts bss w).1.state.settings_state =
      (if w.state.settings_state = 3 ∧ timer_value w.state.timer % 16777216 = 0 then 1
       else (w.state.settings_state + 1) % 5) ∧
    (timer_face_loop TimerEvent.light_button_up now_ts bss w).1.state.mode =
      (if w.state.settings_state = 4 then TimerMode.waiting else TimerMode.setting) ∧
    (w.state.erase_timer_flag = true →
      w.state.settings_state = 0 ∧
      (timer_face_loop TimerEvent.light_button_up now_ts bss w).1.state.timer =
        ⟨0, 0, 0, false⟩) ∧
    (w.state.erase_timer_flag = false →
      (timer_face_loop TimerEvent.light_button_up now_ts bss w).1.state.timer =
        w.state.timer) ∧
    (timer_face_loop TimerEvent.light_button_up now_ts bss w).1.state.erase_timer_flag =
      false := by
  by_cases hflag : w.state.erase_timer_flag = true
  · have hc0 := hinv hflag
    simp only [timer_face_loop, _resume_setting, hmode]
    simp [hflag, hc0, timer_value]
  · simp only [Bool.not_eq_true] at hflag
    simp only [timer_face_loop, _resume_setting, hmode]
    rcases hss : w.state.settings_state with _ | _ | _ | _ | _ | n
    · simp [hss, hmode, hflag]
    · simp [hss, hmode, hflag]
    · simp [hss, hmode, hflag]
    · by_cases hz : timer_value w.state.timer % 16777216 = 0 <;>
        simp [hss, hmode, hflag, hz]
    · simp [hss, hmode, hflag]
    · exact absurd hc (by rw [hss]; omega)

/-- Witness for C7: advancing from cursor 2 with a one-minute duration lands
on cursor 3; advancing from cursor 3 with an unset duration skips the
repeat-toggle position and lands on cursor 1. -/
theorem timer_settings_cursor_advance_witness :
    (timer_face_loop TimerEvent.light_button_up 0 false
      ⟨⟨⟨0, 1, 0, false⟩, TimerMode.setting, 0, 0, 0, 0, 0, 2, false, false, 0⟩,
        0⟩).1.state.settings_state = 3 ∧
    (timer_face_loop TimerEvent.light_button_up 0 false
      ⟨⟨⟨0, 0, 0, false⟩, TimerMode.setting, 0, 0, 0, 0, 0, 3, false, false, 0⟩,
        0⟩).1.state.settings_state = 1 := by
  constructor
  · have h := timer_settings_cursor_advance
      ⟨⟨⟨0, 1, 0, false⟩, TimerMode.setting, 0, 0, 0, 0, 0, 2, false, false, 0⟩, 0⟩
      0 false rfl (by decide) (by decide)
    rw [h.1]
    decide
  · have h := timer_settings_cursor_advance
      ⟨⟨⟨0, 0, 0, false⟩, TimerMode.setting, 0, 0, 0, 0, 0, 3, false, false, 0⟩, 0⟩
      0 false rfl (by decide) (by decide)
    rw [h.1]
    decide

/-! ## C10: the claimed "unset duration implies repeat clear" invariant -/

/-- An event trace from the initial state: set the repeat flag (cursor
0→1→2→3→4, toggle repeat, wrap out of Setting), then re-enter Setting, move
to the minutes field and increment it 59 times so the one-minute default
duration wraps to zero — with the repeat flag still set. -/
def c10_events : List TimerEvent :=
  [TimerEvent.light_long_press] ++
  List.replicate 4 TimerEvent.light_button_up ++
  [TimerEvent.alarm_button_up] ++
  [TimerEvent.light_button_up] ++
  [TimerEvent.light_long_press] ++
  List.replicate 2 TimerEvent.light_button_up ++
  List.replicate 59 TimerEvent.alarm_button_up

def c10_final : TimerWorld :=
  c10_events.foldl (fun w e => (timer_face_loop e 0 false w).1) (timer_face_setup 0)

set_option maxRecDepth 8192 in
/-- Counterexample to C10 as stated: a wrapping minutes increment zeroes the
duration while the repeat flag stays set, so the reachable state `c10_final`
has all duration fields zero, repeat true, and packed value `2^24 ≠ 0`. -/
theorem timer_unset_repeat_invariant_counterexample :
    c10_final.state.timer.hours = 0 ∧ c10_final.state.timer.minutes = 0 ∧
    c10_final.state.timer.seconds = 0 ∧ c10_final.state.timer.repeat_flag = true ∧
    timer_value c10_final.state.timer ≠ 0 := by decide

/-- C10 (amended): what the claim's two justifications do establish — on a
cursor advance in Setting mode, a pending erase request zeroes the entire
packed value (repeat bit included), and the cursor can never land on the
repeat-toggle position 4 with the stored duration unset.  The invariant
itself fails because a wrapping field increment can also zero the duration
(see the counterexample). -/
theorem timer_erase_clears_packed_value (w : TimerWorld) (now_ts : Nat) (bss : Bool)
    (hmode : w.state.mode = TimerMode.setting) :
    (w.state.erase_timer_flag = true →
      timer_value (timer_face_loop TimerEvent.light_button_up now_ts bss w).1.state.timer
        = 0) ∧
    ((timer_face_loop TimerEvent.light_button_up now_ts bss w).1.state.settings_state = 4 →
      timer_value (timer_face_loop TimerEvent.light_button_up now_ts bss w).1.state.timer
        % 16777216 ≠ 0) := by
  by_cases hflag : w.state.erase_timer_flag = true
  · simp only [timer_face_loop, _resume_setting, hmode]
    simp only [hflag, if_true, ite_true]
    split_ifs with h1 h2
    · constructor
      · intro _; rfl
      · intro h4; simp at h4
    · constructor
      · intro _; rfl
      · intro h4; simp at h4
    · constructor
      · intro _; rfl
      · intro h4
        rw [not_and_or] at h2
        rcases h2 with h2 | h2
        · exact absurd h4 h2
        · exact h2
  · simp only [Bool.not_eq_true] at hflag
    simp only [timer_face_loop, _resume_setting, hmode]
    simp only [hflag, Bool.false_eq_true, if_false, ite_false]
    split_ifs with h1 h2
    · exact ⟨fun hf => hf.elim, fun h4 => by simp at h4⟩
    · exact ⟨fun hf => hf.elim, fun h4 => by simp at h4⟩
    · refine ⟨fun hf => hf.elim, fun h4 => ?_⟩
      rw [not_and_or] at h2
      rcases h2 with h2 | h2
      · exact absurd h4 h2
      · exact h2

/-- Witness for C10 (amended): applying a pending erase at cursor 0 zeroes
the packed value of a repeating one-minute timer. -/
theorem timer_erase_clears_packed_value_witness :
    timer_value (timer_face_loop TimerEvent.light_button_up 0 false
      ⟨⟨⟨0, 1, 0, true⟩, TimerMode.setting, 0, 0, 0, 0, 0, 0, true, false, 0⟩,
        0⟩).1.state.timer = 0 :=
  (timer_erase_clears_packed_value
    ⟨⟨⟨0, 1, 0, true⟩, TimerMode.setting, 0, 0, 0, 0, 0, 0, true, false, 0⟩, 0⟩
    0 false rfl).1 rfl

/-! ## C5: pause/resume preserves the remaining time -/

lemma timer_value_ne_zero_of_duration (t : TimerInfo)
    (h : ¬(t.hours = 0 ∧ t.minutes = 0 ∧ t.seconds = 0)) : timer_value t ≠ 0 := by
  unfold timer_value
  split_ifs <;> omega

lemma abort_quick_cycle_fields (s : TimerState) :
    (_abort_quick_cycle s).1.mode = s.mode ∧
    (_abort_quick_cycle s).1.timer = s.timer ∧
    (_abort_quick_cycle s).1.target_ts = s.target_ts ∧
    (_abort_quick_cycle s).1.now_ts = s.now_ts ∧
    (_abort_quick_cycle s).1.paused_left = s.paused_left := by
  unfold _abort_quick_cycle
  split_ifs <;> exact ⟨rfl, rfl, rfl, rfl, rfl⟩

lemma start_from_waiting (w : TimerWorld) (t0 : Nat) (bss : Bool)
    (hmode : w.state.mode = TimerMode.waiting)
    (hval : timer_value w.state.timer ≠ 0) :
    (timer_face_loop TimerEvent.alarm_long_press t0 bss w).1.state.mode =
      TimerMode.running ∧
    (timer_face_loop TimerEvent.alarm_long_press t0 bss w).1.state.now_ts = t0 ∧
    (timer_face_loop TimerEvent.alarm_long_press t0 bss w).1.state.target_ts =
      watch_utility_offset_timestamp t0 w.state.timer.hours w.state.timer.minutes
        w.state.timer.seconds ∧
    (timer_face_loop TimerEvent.alarm_long_press t0 bss w).1.state.timer = w.state.timer ∧
    (timer_face_loop TimerEvent.alarm_long_press t0 bss w).1.beeps_to_play =
      w.beeps_to_play := by
  simp only [timer_face_loop, hmode, _start]
  simp [hval, hmode]

/-- Ticks delivered while the timer runs; the tick's button level and the
unused RTC parameter are irrelevant in Running mode. -/
def runTicks : Nat → TimerWorld → TimerWorld
  | 0, w => w
  | k + 1, w => runTicks k (timer_face_loop (TimerEvent.tick false) 0 false w).1

lemma runTicks_running (k : Nat) : ∀ (w : TimerWorld),
    w.state.mode = TimerMode.running →
    (runTicks k w).state.mode = TimerMode.running ∧
    (runTicks k w).state.now_ts = w.state.now_ts + k ∧
    (runTicks k w).state.target_ts = w.state.target_ts ∧
    (runTicks k w).state.timer = w.state.timer ∧
    (runTicks k w).beeps_to_play = w.beeps_to_play := by
  induction k with
  | zero => exact fun w h => ⟨h, rfl, rfl, rfl, rfl⟩
  | succ k ih =>
      intro w h
      have hstep : (timer_face_loop (TimerEvent.tick false) 0 false w).1 =
          { w with state := { w.state with now_ts := w.state.now_ts + 1 } } := by
        simp [timer_face_loop, h]
      have hrec := ih { w with state := { w.state with now_ts := w.state.now_ts + 1 } } h
      simp only [runTicks, hstep]
      refine ⟨hrec.1, ?_, hrec.2.2.1, hrec.2.2.2.1, hrec.2.2.2.2⟩
      rw [hrec.2.1]
      show w.state.now_ts + 1 + k = w.state.now_ts + (k + 1)
      omega

lemma pause_from_running (w : TimerWorld) (t1 : Nat) (bss : Bool)
    (hmode : w.state.mode = TimerMode.running)
    (hbeeps : w.beeps_to_play = 0) :
    (timer_face_loop TimerEvent.alarm_button_up t1 bss w).1.state.mode =
      TimerMode.pausing ∧
    (timer_face_loop TimerEvent.alarm_button_up t1 bss w).1.state.paused_left =
      w.state.target_ts - w.state.now_ts ∧
    (timer_face_loop TimerEvent.alarm_button_up t1 bss w).1.state.timer =
      w.state.timer ∧
    (timer_face_loop TimerEvent.alarm_button_up t1 bss w).1.state.target_ts =
      w.state.target_ts ∧
    (timer_face_loop TimerEvent.alarm_button_up t1 bss w).1.state.now_ts =
      w.state.now_ts ∧
    (timer_face_loop TimerEvent.alarm_button_up t1 bss w).1.beeps_to_play = 0 := by
  obtain ⟨f1, f2, f3, f4, f5⟩ := abort_quick_cycle_fields w.state
  simp only [timer_face_loop, hbeeps, _check_for_signal]
  rw [f1, hmode]
  simp [f2, f3, f4, f5]

lemma resume_from_pausing (w : TimerWorld) (t2 : Nat) (bss : Bool)
    (hmode : w.state.mode = TimerMode.pausing)
    (hbeeps : w.beeps_to_play = 0)
    (hval : timer_value w.state.timer ≠ 0) :
    (timer_face_loop TimerEvent.alarm_button_up t2 bss w).1.state.target_ts =
      t2 + w.state.paused_left ∧
    (timer_face_loop TimerEvent.alarm_button_up t2 bss w).1.state.mode =
      TimerMode.running := by
  obtain ⟨f1, f2, f3, f4, f5⟩ := abort_quick_cycle_fields w.state
  simp only [timer_face_loop, hbeeps, _check_for_signal]
  rw [f1, hmode]
  simp only [_start, f2]
  rw [if_neg hval, f1, hmode]
  simp [f5]

/-- C5: starting a nonzero timer at `t0`, letting `k ≤ duration` ticks
elapse, pausing, and resuming at `t2` yields a target of `t2` plus the
remainder captured at the pause (`target − now` at pause time); in
particular with no elapsed ticks the resumed target is `t2 + duration`,
exactly an uninterrupted run started at `t2`. -/
theorem timer_pause_resume_target (w : TimerWorld) (t0 t1 t2 k : Nat) (bss : Bool)
    (hmode : w.state.mode = TimerMode.waiting)
    (hdur : ¬(w.state.timer.hours = 0 ∧ w.state.timer.minutes = 0 ∧
      w.state.timer.seconds = 0))
    (hbeeps : w.beeps_to_play = 0)
    (hk : k ≤ w.state.timer.hours * 3600 + w.state.timer.minutes * 60 +
      w.state.timer.seconds) :
    (timer_face_loop TimerEvent.alarm_button_up t1 bss
        (runTicks k (timer_face_loop TimerEvent.alarm_long_press t0 bss w).1)).1.state.paused_left =
      (runTicks k (timer_face_loop TimerEvent.alarm_long_press t0 bss w).1).state.target_ts -
      (runTicks k (timer_face_loop TimerEvent.alarm_long_press t0 bss w).1).state.now_ts ∧
    (timer_face_loop TimerEvent.alarm_button_up t2 bss
        (timer_face_loop TimerEvent.alarm_button_up t1 bss
          (runTicks k (timer_face_loop TimerEvent.alarm_long_press t0 bss w).1)).1).1.state.target_ts =
      t2 + (timer_face_loop TimerEvent.alarm_button_up t1 bss
        (runTicks k (timer_face_loop TimerEvent.alarm_long_press t0 bss w).1)).1.state.paused_left ∧
    (timer_face_loop TimerEvent.alarm_button_up t2 bss
        (timer_face_loop TimerEvent.alarm_button_up t1 bss
          (runTicks k (timer_face_loop TimerEvent.alarm_long_press t0 bss w).1)).1).1.state.target_ts =
      t2 + ((w.state.timer.hours * 3600 + w.state.timer.minutes * 60 +
        w.state.timer.seconds) - k) ∧
    (k = 0 →
      (timer_face_loop TimerEvent.alarm_button_up t2 bss
        (timer_face_loop TimerEvent.alarm_button_up t1 bss
          (runTicks k (timer_face_loop TimerEvent.alarm_long_press t0 bss w).1)).1).1.state.target_ts =
      t2 + (w.state.timer.hours * 3600 + w.state.timer.minutes * 60 +
        w.state.timer.seconds)) := by
  have hval := timer_value_ne_zero_of_duration w.state.timer hdur
  obtain ⟨a1, a2, a3, a4, a5⟩ := start_from_waiting w t0 bss hmode hval
  obtain ⟨b1, b2, b3, b4, b5⟩ :=
    runTicks_running k (timer_face_loop TimerEvent.alarm_long_press t0 bss w).1 a1
  obtain ⟨c1, c2, c3, c4, c5, c6⟩ := pause_from_running _ t1 bss b1 (by rw [b5, a5, hbeeps])
  obtain ⟨d1, d2⟩ := resume_from_pausing _ t2 bss c1 c6 (by rw [c3, b4, a4]; exact hval)
  refine ⟨c2, d1, ?_, ?_⟩
  · rw [d1, c2, b3, a3, b2, a2]
    unfold watch_utility_offset_timestamp
    omega
  · intro hk0
    rw [d1, c2, b3, a3, b2, a2, hk0]
    unfold watch_utility_offset_timestamp
    omega

/-- Witness for C5: a one-minute timer started at `t0 = 100`, paused after
10 ticks and resumed at `t2 = 500` targets `550 = 500 + 50`. -/
theorem timer_pause_resume_target_witness :
    (timer_face_loop TimerEvent.alarm_button_up 500 false
        (timer_face_loop TimerEvent.alarm_button_up 110 false
          (runTicks 10 (timer_face_loop TimerEvent.alarm_long_press 100 false
            (timer_face_setup 0)).1)).1).1.state.target_ts = 500 + (60 - 10) :=
  (timer_pause_resume_target (timer_face_setup 0) 100 110 500 10 false rfl
    (by decide) rfl (by decide)).2.2.1

end SensorWatch
